import Mathlib

/-!
Verification development for the duel_commander_500 repository.

The repository is a small ETL pipeline (src/etl.py) that cleans spreadsheet
records of card-game tournament results, derives deterministic identifiers,
builds a star schema (one fact table, three dimension tables), and a
reporting query (src/dashboard.py) that classifies decks by performance.

This file shallowly embeds the transformation core of both files:
DataFrames become lists of structured rows, pandas column operations become
list maps, raised Python exceptions become Except results, and NaN cells
become Option values.  Library primitives used by the source are modelled
executably: hashlib.md5 is implemented bit-for-bit below with Nat
arithmetic mod 2^32, and the pandas date parser is modelled by an
executable parser of the two textual encodings the data uses.
-/

/-! ## Modelled library primitive: hashlib.md5

A complete executable MD5 over byte lists (bytes are Nat values below 256).
All 32-bit arithmetic is Nat arithmetic taken mod 4294967296.  This models
the hashlib.md5(...).hexdigest() calls in src/etl.py. -/

def m32 : Nat := 4294967296

def mask32 : Nat := 4294967295

def rotl32 (x s : Nat) : Nat :=
  ((x <<< s) % m32) ||| (x >>> (32 - s))

/-- Bitwise complement on 32-bit words, as xor with the all-ones mask. -/
def not32 (x : Nat) : Nat := mask32 ^^^ x

/-- The 64 MD5 sine-derived round constants. -/
def md5K : List Nat := [
  3614090360, 3905402710, 606105819, 3250441966, 4118548399, 1200080426, 2821735955, 4249261313,
  1770035416, 2336552879, 4294925233, 2304563134, 1804603682, 4254626195, 2792965006, 1236535329,
  4129170786, 3225465664, 643717713, 3921069994, 3593408605, 38016083, 3634488961, 3889429448,
  568446438, 3275163606, 4107603335, 1163531501, 2850285829, 4243563512, 1735328473, 2368359562,
  4294588738, 2272392833, 1839030562, 4259657740, 2763975236, 1272893353, 4139469664, 3200236656,
  681279174, 3936430074, 3572445317, 76029189, 3654602809, 3873151461, 530742520, 3299628645,
  4096336452, 1126891415, 2878612391, 4237533241, 1700485571, 2399980690, 4293915773, 2240044497,
  1873313359, 4264355552, 2734768916, 1309151649, 4149444226, 3174756917, 718787259, 3951481745]

/-- The 64 MD5 per-round left-rotation amounts. -/
def md5S : List Nat := [
  7, 12, 17, 22, 7, 12, 17, 22, 7, 12, 17, 22, 7, 12, 17, 22,
  5, 9, 14, 20, 5, 9, 14, 20, 5, 9, 14, 20, 5, 9, 14, 20,
  4, 11, 16, 23, 4, 11, 16, 23, 4, 11, 16, 23, 4, 11, 16, 23,
  6, 10, 15, 21, 6, 10, 15, 21, 6, 10, 15, 21, 6, 10, 15, 21]

structure MD5State where
  a : Nat
  b : Nat
  c : Nat
  d : Nat
deriving DecidableEq, Repr

def md5Init : MD5State := ⟨1732584193, 4023233417, 2562383102, 271733878⟩

/-- One of the 64 MD5 rounds, acting on the running state; M is the list of
the 16 message words of the current chunk. -/
def md5Round (M : List Nat) (st : MD5State) (i : Nat) : MD5State :=
  let f :=
    if i < 16 then (st.b &&& st.c) ||| ((not32 st.b) &&& st.d)
    else if i < 32 then (st.d &&& st.b) ||| ((not32 st.d) &&& st.c)
    else if i < 48 then st.b ^^^ st.c ^^^ st.d
    else st.c ^^^ (st.b ||| (not32 st.d))
  let g :=
    if i < 16 then i
    else if i < 32 then (5 * i + 1) % 16
    else if i < 48 then (3 * i + 5) % 16
    else (7 * i) % 16
  let f2 := (f + st.a + md5K.getD i 0 + M.getD g 0) % m32
  { a := st.d, b := (st.b + rotl32 f2 (md5S.getD i 0)) % m32, c := st.b, d := st.c }

/-- Processes one 64-byte chunk: decodes the 16 little-endian words, runs the
64 rounds, and adds the result back into the incoming state mod 2^32. -/
def md5Chunk (st : MD5State) (chunk : List Nat) : MD5State :=
  let M := (List.range 16).map (fun j =>
    chunk.getD (4 * j) 0 + 256 * chunk.getD (4 * j + 1) 0 +
    65536 * chunk.getD (4 * j + 2) 0 + 16777216 * chunk.getD (4 * j + 3) 0)
  let r := (List.range 64).foldl (md5Round M) st
  ⟨(st.a + r.a) % m32, (st.b + r.b) % m32, (st.c + r.c) % m32, (st.d + r.d) % m32⟩

/-- Folds md5Chunk over successive 64-byte chunks.  The fuel argument is a
structural-recursion bound; callers pass the list length, which always
suffices because every step consumes 64 bytes of a non-empty list. -/
def md5Chunks : Nat → MD5State → List Nat → MD5State
  | _, st, [] => st
  | 0, st, _ => st
  | fuel + 1, st, l => md5Chunks fuel (md5Chunk st (l.take 64)) (l.drop 64)

/-- MD5 padding: append the 0x80 marker, zero bytes up to 56 mod 64, then the
original bit length as 8 little-endian bytes. -/
def md5Pad (msg : List Nat) : List Nat :=
  let len := msg.length
  let r := (len + 1) % 64
  let z := (120 - r) % 64
  let bitLen := (len * 8) % 18446744073709551616
  msg ++ [128] ++ List.replicate z 0 ++ (List.range 8).map (fun i => (bitLen >>> (8 * i)) % 256)

def wordLEBytes (w : Nat) : List Nat :=
  [w % 256, w / 256 % 256, w / 65536 % 256, w / 16777216 % 256]

/-- The 16-byte MD5 digest of a byte list. -/
def md5Bytes (msg : List Nat) : List Nat :=
  let padded := md5Pad msg
  let st := md5Chunks padded.length md5Init padded
  ([st.a, st.b, st.c, st.d].map wordLEBytes).flatten

/-- The hexadecimal digit character for a value below 16, by code point:
48 is the code of the zero digit and 87 + 10 the code of the letter a. -/
def hexDigitChar (d : Nat) : Char :=
  if d < 10 then Char.ofNat (48 + d) else Char.ofNat (87 + d)

def byteHex (b : Nat) : List Char :=
  [hexDigitChar (b / 16 % 16), hexDigitChar (b % 16)]

/-- The lowercase 32-character hex digest of a byte list, as produced by
hashlib.md5(...).hexdigest() in the source. -/
def md5Hex (msg : List Nat) : String :=
  String.mk ((md5Bytes msg).map byteHex).flatten

/-! ## Modelled library primitive: UTF-8 encoding

Models Python str.encode(): code points to UTF-8 bytes. -/

def charUtf8 (c : Char) : List Nat :=
  let n := c.toNat
  if n < 128 then [n]
  else if n < 2048 then [192 ||| (n >>> 6), 128 ||| (n &&& 63)]
  else if n < 65536 then
    [224 ||| (n >>> 12), 128 ||| ((n >>> 6) &&& 63), 128 ||| (n &&& 63)]
  else
    [240 ||| (n >>> 18), 128 ||| ((n >>> 12) &&& 63), 128 ||| ((n >>> 6) &&& 63), 128 ||| (n &&& 63)]

def utf8Bytes (s : String) : List Nat :=
  (s.data.map charUtf8).flatten

/-! ## Modelled library primitives: Python string operations

Structural-recursion models of str.strip, str.lower, slicing and splitting,
so that every derived value reduces inside the kernel. -/

def pyIsSpace (c : Char) : Bool :=
  [32, 9, 10, 13].contains c.toNat

/-- Models Python str.strip(): removes leading and trailing whitespace. -/
def pyStrip (s : String) : String :=
  String.mk (((s.data.dropWhile pyIsSpace).reverse.dropWhile pyIsSpace).reverse)

def charLower (c : Char) : Char :=
  if 65 ≤ c.toNat && c.toNat ≤ 90 then Char.ofNat (c.toNat + 32) else c

/-- Models Python str.lower() on the repository data (ASCII letters). -/
def pyLower (s : String) : String :=
  String.mk (s.data.map charLower)

/-- Models Python slicing s[:n]: the first n characters. -/
def pyTake (n : Nat) (s : String) : String :=
  String.mk (s.data.take n)

/-- Splits a character list at every occurrence of the separator. -/
def listSplitOnChar (sep : Char) : List Char → List (List Char)
  | [] => [[]]
  | c :: cs =>
    let r := listSplitOnChar sep cs
    if c == sep then [] :: r
    else
      match r with
      | [] => [[c]]
      | h :: t => (c :: h) :: t

def isDigitChar (c : Char) : Bool :=
  48 ≤ c.toNat && c.toNat ≤ 57

def allDigits (l : List Char) : Bool :=
  !l.isEmpty && l.all isDigitChar

def digitsToNat (l : List Char) : Nat :=
  l.foldl (fun acc c => 10 * acc + (c.toNat - 48)) 0

def digitChar (d : Nat) : Char := hexDigitChar d

def natToDigitsAux : Nat → Nat → List Char
  | 0, _ => []
  | _ + 1, 0 => []
  | fuel + 1, n => natToDigitsAux fuel (n / 10) ++ [digitChar (n % 10)]

def natRepr (n : Nat) : String :=
  if n == 0 then "0" else String.mk (natToDigitsAux (n + 1) n)

def pad2 (n : Nat) : String :=
  if n < 10 then "0" ++ natRepr n else natRepr n

def pad4 (n : Nat) : String :=
  if n < 10 then "000" ++ natRepr n
  else if n < 100 then "00" ++ natRepr n
  else if n < 1000 then "0" ++ natRepr n
  else natRepr n

/-! ## Data model: dates

A canonical calendar date, the result of successful date normalization. -/

structure Date where
  year : Nat
  month : Nat
  day : Nat
deriving DecidableEq, Repr

/-- Lowercase English month abbreviations, for the strptime percent-b
directive (CPython matches month abbreviations case-insensitively). -/
def monthAbbrevs : List String :=
  ["jan", "feb", "mar", "apr", "may", "jun", "jul", "aug", "sep", "oct", "nov", "dec"]

def findIdx1 (x : String) : List String → Option Nat
  | [] => none
  | y :: ys => if y == x then some 1 else (findIdx1 x ys).map (· + 1)

def monthFromAbbrev (tok : List Char) : Option Nat :=
  findIdx1 (String.mk (tok.map charLower)) monthAbbrevs

/-- Range validation shared by the date parsers; month 1..12, day 1..31
(month-length refinements of the library parser are not modelled because no
claim depends on them). -/
def mkValidDate (y m d : Nat) : Option Date :=
  if 1 ≤ m && m ≤ 12 && 1 ≤ d && d ≤ 31 then some ⟨y, m, d⟩ else none

/-- Modelled library primitive: the generic pandas.to_datetime string parser
on the encodings this data uses, namely ISO year-month-day and
day-monthAbbrev-year, both hyphen-separated; anything else fails (the
library raises, which the caller turns into the missing-date sentinel). -/
def pd_to_datetime_str (s : String) : Option Date :=
  match listSplitOnChar '-' s.data with
  | [a, b, c] =>
    if a.length == 4 && allDigits a && allDigits b && allDigits c then
      mkValidDate (digitsToNat a) (digitsToNat b) (digitsToNat c)
    else if allDigits a && c.length == 4 && allDigits c && (monthFromAbbrev b).isSome then
      match monthFromAbbrev b with
      | some m => mkValidDate (digitsToNat c) m (digitsToNat a)
      | none => none
    else none
  | _ => none

/-- Modelled library primitive: datetime.strptime with the fixed format
day-monthAbbrev-year used at src/etl.py line 116.  The format string
contains hyphens, so an input without a hyphen can never match. -/
def strptime_d_b_Y (s : String) : Option Date :=
  match listSplitOnChar '-' s.data with
  | [d, mon, y] =>
    if allDigits d && d.length ≤ 2 && allDigits y && y.length == 4 then
      match monthFromAbbrev mon with
      | some m => mkValidDate (digitsToNat y) m (digitsToNat d)
      | none => none
    else none
  | _ => none

/-- Sakamoto day-of-week: 0 is Sunday. -/
def dayOfWeek (y m d : Nat) : Nat :=
  let t := [0, 3, 2, 5, 0, 3, 5, 1, 4, 6, 2, 4]
  let y2 := if m < 3 then y - 1 else y
  (y2 + y2 / 4 - y2 / 100 + y2 / 400 + t.getD (m - 1) 0 + d) % 7

def monthNamesEn : List String :=
  ["January", "February", "March", "April", "May", "June",
   "July", "August", "September", "October", "November", "December"]

def weekdayNamesEn : List String :=
  ["Sunday", "Monday", "Tuesday", "Wednesday", "Thursday", "Friday", "Saturday"]

/-- strftime percent-B: the English month name. -/
def strftime_B (dt : Date) : String := monthNamesEn.getD (dt.month - 1) ""

/-- strftime percent-A: the English weekday name. -/
def strftime_A (dt : Date) : String :=
  weekdayNamesEn.getD (dayOfWeek dt.year dt.month dt.day) ""

/-- strftime with format YYYYMMDD, as used by generate_tournament_id. -/
def fmtYmd (dt : Date) : String := pad4 dt.year ++ pad2 dt.month ++ pad2 dt.day

/-! ## Data model: raw records

One spreadsheet row.  NaN cells are modelled by Option none or by the
dedicated missing constructors; a DATE or POSITION cell may also hold a
value of a non-string type. -/

/-- A raw DATE cell: text, an already-parsed date value, or NaN. -/
inductive RawDate where
  | str (s : String)
  | dateVal (d : Date)
  | missing
deriving DecidableEq, Repr

/-- A raw POSITION cell: text, a number, or NaN. -/
inductive RawPos where
  | str (s : String)
  | num (n : Int)
  | missing
deriving DecidableEq, Repr

structure RawRow where
  date : RawDate
  position : RawPos
  info : Option String
  deck : Option String
  decklist : Option String
  store : Option String
deriving DecidableEq, Repr

/-- Python exceptions that the embedded pipeline fragments can raise. -/
inductive PyError where
  | valueError (msg : String)
  | attributeError (msg : String)
deriving DecidableEq, Repr

/-! ## Identifier Generator (src/etl.py lines 37 to 59) -/

/-- generate_store_id, src/etl.py lines 37 to 44: normalize (strip, lower),
then first three characters, an underscore, and the first four hex
characters of the md5 digest of the normalized name. -/
def generate_store_id (store_name : String) : String :=
  let s := pyLower (pyStrip store_name)
  let pfx := pyTake 3 s
  let hash_suffix := pyTake 4 (md5Hex (utf8Bytes s))
  pfx ++ "_" ++ hash_suffix

/-- generate_tournament_id, src/etl.py lines 46 to 51.  The argument is the
DATE cell after standardize_date, so it can be the NaT sentinel (none);
pandas NaT.strftime raises ValueError, which this models as an error. -/
def generate_tournament_id (date : Option Date) (store_id : String) : Except PyError String :=
  match date with
  | none => .error (.valueError "NaTType does not support strftime")
  | some d => .ok ("t_" ++ fmtYmd d ++ "_" ++ store_id)

/-- generate_deck_id, src/etl.py lines 53 to 59: NaN reference gives None,
otherwise d_ followed by the first eight hex characters of the md5 digest
of the reference. -/
def generate_deck_id (decklist_url : Option String) : Option String :=
  match decklist_url with
  | none => none
  | some url => some ("d_" ++ pyTake 8 (md5Hex (utf8Bytes url)))

/-! ## Date Normalizer (src/etl.py lines 61 to 101 and 110 to 120) -/

/-- standardize_date, src/etl.py lines 110 to 120: a string containing a
hyphen goes to the generic parser, a string without a hyphen to the strict
day-monthAbbrev-year strptime (which can never match without hyphens), a
date value passes through, NaN stays NaT; every parse failure becomes the
NaT sentinel (none) with a logged warning. -/
def hasHyphen (s : String) : Bool := s.data.any (· == '-')

def standardize_date : RawDate → Option Date
  | .str s => if hasHyphen s then pd_to_datetime_str s else strptime_d_b_Y s
  | .dateVal d => some d
  | .missing => none

/-- The Portuguese month-name translation table of src/etl.py lines 72 to 85. -/
def nome_mes_br_map : List (String × String) :=
  [("January", "Janeiro"), ("February", "Fevereiro"), ("March", "Março"),
   ("April", "Abril"), ("May", "Maio"), ("June", "Junho"), ("July", "Julho"),
   ("August", "Agosto"), ("September", "Setembro"), ("October", "Outubro"),
   ("November", "Novembro"), ("December", "Dezembro")]

/-- The Portuguese weekday translation table of src/etl.py lines 88 to 96. -/
def dia_semana_br_map : List (String × String) :=
  [("Monday", "Segunda-feira"), ("Tuesday", "Terça-feira"),
   ("Wednesday", "Quarta-feira"), ("Thursday", "Quinta-feira"),
   ("Friday", "Sexta-feira"), ("Saturday", "Sábado"), ("Sunday", "Domingo")]

/-- Dictionary get with the key itself as fallback, as dict.get(k, k). -/
def lookupOr (m : List (String × String)) (k : String) : String :=
  match m.find? (fun p => p.1 == k) with
  | some p => p.2
  | none => k

structure DateDisplay where
  data_br : Option String
  mes_ano : Option String
  nome_mes : Option String
  dia_semana : Option String
deriving DecidableEq, Repr

/-- get_formatted_date, src/etl.py lines 61 to 101: NaT gives four Nones;
otherwise the Brazilian day/month/year string, the month/year key, and the
translated month and weekday names. -/
def get_formatted_date : Option Date → DateDisplay
  | none => ⟨none, none, none, none⟩
  | some d =>
    ⟨some (pad2 d.day ++ "/" ++ pad2 d.month ++ "/" ++ pad4 d.year),
     some (pad2 d.month ++ "/" ++ pad4 d.year),
     some (lookupOr nome_mes_br_map (strftime_B d)),
     some (lookupOr dia_semana_br_map (strftime_A d))⟩

/-! ## Record Cleaner (src/etl.py lines 103 to 150) -/

/-- pd.to_numeric with errors equal to coerce on a POSITION cell:
non-numeric text becomes the missing sentinel. -/
def pd_to_numeric_coerce : RawPos → Option Int
  | .num n => some n
  | .str s => if allDigits s.data then some (digitsToNat s.data) else none
  | .missing => none

/-- The INFO treatment of src/etl.py line 139: the empty string becomes the
missing sentinel, everything else is kept. -/
def clean_info : Option String → Option String
  | some s => if s == "" then none else some s
  | none => none

/-- One row of the frame after the per-column derivations of
clean_tournament_data: the original columns (DATE overwritten with the
parsed date, POSITION coerced, INFO normalized) plus the derived identifier
and date-display columns. -/
structure CleanRow where
  date : Option Date
  position : Option Int
  info : Option String
  deck : Option String
  decklist : Option String
  store : Option String
  store_id : String
  deck_id : Option String
  tournament_id : String
  data_br : Option String
  mes_ano : Option String
  nome_mes : Option String
  dia_semana : Option String
deriving DecidableEq, Repr

/-- Monadic map over a list in the Except monad, stopping at the first
error; models a pandas column apply in which the applied function raises. -/
def mapME (f : α → Except PyError β) : List α → Except PyError (List β)
  | [] => .ok []
  | a :: as =>
    match f a with
    | .error e => .error e
    | .ok b =>
      match mapME f as with
      | .error e => .error e
      | .ok bs => .ok (b :: bs)

/-- The STORE_ID column pass of src/etl.py line 126: applying
generate_store_id to a NaN STORE cell raises AttributeError because a float
has no strip method. -/
def store_id_of_row (r : RawRow) : Except PyError String :=
  match r.store with
  | some s => .ok (generate_store_id s)
  | none => .error (.attributeError "float object has no attribute strip")

/-- Assembles one augmented row from a raw row plus the store and
tournament identifiers computed in the two fallible column passes; all
other derived columns are pointwise total functions of the raw row. -/
def mkCleanRow (r : RawRow) (sid tid : String) : CleanRow :=
  let d := standardize_date r.date
  let disp := get_formatted_date d
  { date := d
    position := pd_to_numeric_coerce r.position
    info := clean_info r.info
    deck := r.deck
    decklist := r.decklist
    store := r.store
    store_id := sid
    deck_id := generate_deck_id r.decklist
    tournament_id := tid
    data_br := disp.data_br
    mes_ano := disp.mes_ano
    nome_mes := disp.nome_mes
    dia_semana := disp.dia_semana }

def assembleRows : List RawRow → List String → List String → List CleanRow
  | r :: rs, sid :: sids, tid :: tids => mkCleanRow r sid tid :: assembleRows rs sids tids
  | _, _, _ => []

/-- The state of the frame passed to clean_tournament_data at src/etl.py
line 144, after all the in-place column assignments of lines 123 to 142 and
before the dropna.  The column assignments mutate the very DataFrame object
the caller passed in, so on success this is also the content of the
callers frame after the call returns. -/
def caller_frame_after_clean (rows : List RawRow) : Except PyError (List CleanRow) :=
  match mapME store_id_of_row rows with
  | .error e => .error e
  | .ok store_ids =>
    match mapME (fun p => generate_tournament_id p.1 p.2)
        ((rows.map (fun r => standardize_date r.date)).zip store_ids) with
    | .error e => .error e
    | .ok t_ids => .ok (assembleRows rows store_ids t_ids)

/-- The dropna predicate of src/etl.py line 146: a row is kept when DATE,
POSITION, DECK and STORE are all present. -/
def dropna_keep (r : CleanRow) : Bool :=
  r.date.isSome && r.position.isSome && r.deck.isSome && r.store.isSome

/-- clean_tournament_data, src/etl.py lines 103 to 150: the in-place column
derivations, then dropna on the four critical columns and reset_index.  In
the list model the reset_index renumbering is implicit. -/
def clean_tournament_data (rows : List RawRow) : Except PyError (List CleanRow) :=
  match caller_frame_after_clean rows with
  | .error e => .error e
  | .ok aug => .ok (aug.filter dropna_keep)

/-! ## Dimensional Builder (src/etl.py lines 152 to 197) -/

structure FactRow where
  tournament_id : String
  date : Option Date
  store_id : String
  deck_id : Option String
  position : Option Int
  info : Option String
deriving DecidableEq, Repr

structure DeckDimRow where
  deck_id : Option String
  deck : Option String
  decklist : Option String
deriving DecidableEq, Repr

structure StoreDimRow where
  store_id : String
  store : Option String
deriving DecidableEq, Repr

structure DateDimRow where
  date : Option Date
  data_br : Option String
  mes_ano : Option String
  nome_mes : Option String
  dia_semana : Option String
deriving DecidableEq, Repr

/-- pandas drop_duplicates with default arguments: keeps the first
occurrence of every distinct full row (NaN cells compare equal, as pandas
treats them when detecting duplicates). -/
def dropDupAux [DecidableEq α] (seen : List α) : List α → List α
  | [] => []
  | a :: l => if a ∈ seen then dropDupAux seen l else a :: dropDupAux (a :: seen) l

def drop_duplicates [DecidableEq α] (l : List α) : List α := dropDupAux [] l

def factRowOf (r : CleanRow) : FactRow :=
  ⟨r.tournament_id, r.date, r.store_id, r.deck_id, r.position, r.info⟩

def deckDimRowOf (r : CleanRow) : DeckDimRow := ⟨r.deck_id, r.deck, r.decklist⟩

def storeDimRowOf (r : CleanRow) : StoreDimRow := ⟨r.store_id, r.store⟩

def dateDimRowOf (r : CleanRow) : DateDimRow :=
  ⟨r.date, r.data_br, r.mes_ano, r.nome_mes, r.dia_semana⟩

structure DimensionalTables where
  tournaments_fact : List FactRow
  decks_dim : List DeckDimRow
  stores_dim : List StoreDimRow
  dates_dim : List DateDimRow
deriving DecidableEq, Repr

/-- create_dimensional_tables, src/etl.py lines 152 to 197: the fact table
is the column projection of every clean row with no deduplication; the
three dimensions are full-row drop_duplicates of their projections, and the
deck dimension additionally drops rows whose DECK_ID is null. -/
def create_dimensional_tables (df_clean : List CleanRow) : DimensionalTables :=
  { tournaments_fact := df_clean.map factRowOf
    decks_dim := (drop_duplicates (df_clean.map deckDimRowOf)).filter (fun r => r.deck_id.isSome)
    stores_dim := drop_duplicates (df_clean.map storeDimRowOf)
    dates_dim := drop_duplicates (df_clean.map dateDimRowOf) }

/-! ## Raw-input validation and the ETL transform chain
(src/etl.py lines 280 to 296 and 298 to 352) -/

def required_columns : List String :=
  ["DATE", "POSITION", "INFO", "DECK", "DECKLIST", "STORE"]

/-- validate_raw_data, src/etl.py lines 280 to 296: raises ValueError when
a required column is missing, then raises ValueError when the frame is
empty, otherwise returns True.  The column list of the frame is passed
alongside the rows. -/
def validate_raw_data (cols : List String) (rows : List RawRow) : Except PyError Bool :=
  if (required_columns.filter (fun c => !cols.contains c)).isEmpty then
    if rows.isEmpty then .error (.valueError "DataFrame está vazio")
    else .ok true
  else .error (.valueError ("Colunas obrigatórias faltando: " ++
    String.intercalate ", " (required_columns.filter (fun c => !cols.contains c))))

/-- The in-memory transformation chain of main, src/etl.py lines 324 to
331: validate the raw frame, clean it, build the dimensional tables.  Any
raised error aborts the chain with no output. -/
def etl_transform (cols : List String) (rows : List RawRow) : Except PyError DimensionalTables :=
  match validate_raw_data cols rows with
  | .error e => .error e
  | .ok _ =>
    match clean_tournament_data rows with
    | .error e => .error e
    | .ok cleaned => .ok (create_dimensional_tables cleaned)

/-- Run-varying process state that a non-deterministic pipeline could read:
the per-run string-hash randomization seed and a base memory address.  The
source derives every identifier with content-based md5, so the embedded
pipeline takes this environment and never consults it. -/
structure RunEnv where
  hashSeed : Nat
  baseAddress : Nat
deriving DecidableEq, Repr

/-- One full pipeline run in a given process environment. -/
def run_etl (_env : RunEnv) (cols : List String) (rows : List RawRow) :
    Except PyError DimensionalTables :=
  etl_transform cols rows

/-! ## Reporting Query (src/dashboard.py lines 33 to 79)

An executable relational model of the SQL in obter_performance_dos_decks,
over the fact and deck-dimension tables: inner join on deck_id (SQL null
never joins), group by the deck name, HAVING count at least 2, the derived
statistics, the CASE classification against the two thresholds, and the
ORDER BY.  The FLOAT division and ROUND(x, 2) are modelled with exact
rationals. -/

def Date.leb (a b : Date) : Bool :=
  a.year < b.year ||
  (a.year == b.year && (a.month < b.month || (a.month == b.month && a.day ≤ b.day)))

/-- SQL MIN over a date column: NULLs are ignored; NULL when all are. -/
def sqlMinDate (l : List (Option Date)) : Option Date :=
  l.foldl (fun acc od =>
    match acc, od with
    | none, x => x
    | some a, none => some a
    | some a, some b => if Date.leb a b then some a else some b) none

/-- SQL MAX over a date column: NULLs are ignored; NULL when all are. -/
def sqlMaxDate (l : List (Option Date)) : Option Date :=
  l.foldl (fun acc od =>
    match acc, od with
    | none, x => x
    | some a, none => some a
    | some a, some b => if Date.leb a b then some b else some a) none

/-- The SQL filter position <= 4: NULL comparisons are not true. -/
def sqlPosLe4 : Option Int → Bool
  | some n => n ≤ 4
  | none => false

/-- SQL equality in the join condition: NULL equals nothing. -/
def sqlEqId : Option String → Option String → Bool
  | some a, some b => a == b
  | _, _ => false

/-- The inner join of tournaments_fact with decks_dim on deck_id. -/
def joinFactsDecks (facts : List FactRow) (decks : List DeckDimRow) :
    List (FactRow × DeckDimRow) :=
  (facts.map (fun t => (decks.filter (fun d => sqlEqId t.deck_id d.deck_id)).map (fun d => (t, d)))).flatten

/-- The rows of the join belonging to one GROUP BY key (the deck name as
stored in the dimension; SQL groups NULLs together). -/
def deckGroup (j : List (FactRow × DeckDimRow)) (key : Option String) :
    List (FactRow × DeckDimRow) :=
  j.filter (fun p => p.2.deck == key)

/-- ROUND(x, 2) of the SQL, modelled on exact rationals: round half up to
two decimal places. -/
def round2 (q : Rat) : Rat := ((round (q * 100) : Int) : Rat) / 100

structure DeckStats where
  deck : Option String
  total_aparicoes : Nat
  quantidade_top4 : Nat
  taxa_top4 : Rat
  primeira_aparicao : Option Date
  ultima_aparicao : Option Date
deriving DecidableEq, Repr

/-- The aggregates of the estatisticas_decks CTE for one group key: LOWER
of the deck name, the appearance count, the top-4 count, the rounded top-4
percentage, and the first and last appearance dates. -/
def statsFor (j : List (FactRow × DeckDimRow)) (key : Option String) : DeckStats :=
  let grp := deckGroup j key
  let total := grp.length
  let top4 := (grp.filter (fun p => sqlPosLe4 p.1.position)).length
  { deck := key.map pyLower
    total_aparicoes := total
    quantidade_top4 := top4
    taxa_top4 := round2 ((top4 : Rat) / (total : Rat) * 100)
    primeira_aparicao := sqlMinDate (grp.map (fun p => p.1.date))
    ultima_aparicao := sqlMaxDate (grp.map (fun p => p.1.date)) }

structure PerfRow where
  deck : Option String
  total_aparicoes : Nat
  quantidade_top4 : Nat
  taxa_top4 : Rat
  primeira_aparicao : Option Date
  ultima_aparicao : Option Date
  categoria_performance : String
deriving DecidableEq, Repr

/-- The CASE expression of the query: the 50 percent rate threshold and the
average-appearances popularity threshold. -/
def categoriaOf (avg : Rat) (s : DeckStats) : String :=
  if 50 ≤ s.taxa_top4 ∧ avg ≤ (s.total_aparicoes : Rat) then "TOPPERS"
  else if 50 ≤ s.taxa_top4 then "HIDDEN GEMS"
  else if avg ≤ (s.total_aparicoes : Rat) then "QUERIDINHOS DOS FÃS"
  else "CRINGES"

/-- AVG(total_aparicoes) over a list of grouped statistics. -/
def avgTotal (stats : List DeckStats) : Rat :=
  ((stats.map (fun s => (s.total_aparicoes : Rat))).sum) / (stats.length : Rat)

/-- The ORDER BY relation: a may precede b when a has more appearances, or
equally many and at least as high a top-4 rate. -/
def perfOrdb (a b : PerfRow) : Bool :=
  b.total_aparicoes < a.total_aparicoes ||
  (a.total_aparicoes == b.total_aparicoes && decide (b.taxa_top4 ≤ a.taxa_top4))

def insertBy (r : α → α → Bool) (x : α) : List α → List α
  | [] => [x]
  | y :: ys => if r x y then x :: y :: ys else y :: insertBy r x ys

def sortBy (r : α → α → Bool) : List α → List α
  | [] => []
  | x :: xs => insertBy r x (sortBy r xs)

def perfRowOf (avg : Rat) (s : DeckStats) : PerfRow :=
  ⟨s.deck, s.total_aparicoes, s.quantidade_top4, s.taxa_top4,
   s.primeira_aparicao, s.ultima_aparicao, categoriaOf avg s⟩

/-- obter_performance_dos_decks, src/dashboard.py lines 33 to 79: the CTE
groups the join by deck name keeping groups of size at least 2, the outer
SELECT classifies each group against the thresholds, and the result is
sorted by descending appearances then descending top-4 rate. -/
def obter_performance_dos_decks (facts : List FactRow) (decks : List DeckDimRow) :
    List PerfRow :=
  let j := joinFactsDecks facts decks
  let keys := drop_duplicates (j.map (fun p => p.2.deck))
  let qual := (keys.map (statsFor j)).filter (fun s => 2 ≤ s.total_aparicoes)
  let avg := avgTotal qual
  sortBy perfOrdb (qual.map (perfRowOf avg))

/-- The average of the total_aparicoes column of a query result. -/
def resAvgTotal (res : List PerfRow) : Rat :=
  ((res.map (fun r => (r.total_aparicoes : Rat))).sum) / (res.length : Rat)

/-! ## Concrete inputs used by the witness and counterexample theorems -/

/-- A raw row whose DATE text fails every parse strategy (no hyphen, so the
strict strptime branch applies and cannot match). -/
def c1_bad_date_row : RawRow :=
  { date := .str "not a real date", position := .str "1", info := none,
    deck := some "Krenko", decklist := none, store := some "Game Haven" }

/-- Two raw rows for the cleaning witnesses: a complete one and one with a
missing deck name (which survives every derivation pass and is then dropped
by the final filter). -/
def c4_rows : List RawRow :=
  [{ date := .str "2023-01-15", position := .str "3", info := some "",
     deck := some "Krenko", decklist := some "http://x/y", store := some "Game Haven" },
   { date := .str "01-Jan-2023", position := .str "2", info := some "obs",
     deck := none, decklist := none, store := some "Game Haven" }]

def c4_out : List CleanRow :=
  match clean_tournament_data c4_rows with
  | .ok l => l
  | .error _ => []

def c10_rows : List RawRow :=
  [{ date := .str "2024-06-02", position := .num 4, info := none,
     deck := some "Elfos", decklist := some "http://decklist.example/a",
     store := some "Loja Central" },
   { date := .str "2024-06-03", position := .missing, info := some "x",
     deck := some "Goblins", decklist := none, store := some "Loja Central" }]

def c10_out : List CleanRow :=
  match clean_tournament_data c10_rows with
  | .ok l => l
  | .error _ => []

/-- Two raw rows whose STORE texts differ but normalize (strip, lower) to
the same string, so they share a store identifier while remaining distinct
full rows; their DECKLIST references are equal but their DECK names differ,
so they share a deck identifier while remaining distinct full rows. -/
def c2_raw_rows : List RawRow :=
  [{ date := .str "2023-01-15", position := .str "1", info := none,
     deck := some "Krenko", decklist := some "http://x/y", store := some "Game Haven" },
   { date := .str "2023-01-15", position := .str "2", info := none,
     deck := some "Goblins", decklist := some "http://x/y", store := some "  GAME HAVEN  " }]

def c2_clean : List CleanRow :=
  match clean_tournament_data c2_raw_rows with
  | .ok l => l
  | .error _ => []

def c5_rows : List RawRow :=
  [{ date := .str "2023-03-04", position := .str "2", info := some "",
     deck := some "Krenko", decklist := some "http://x/y", store := some "Game Haven" }]

def c9_wfacts : List FactRow :=
  [⟨"t1", some ⟨2023, 1, 1⟩, "s", some "d_x", some 1, none⟩,
   ⟨"t2", some ⟨2023, 2, 1⟩, "s", some "d_x", some 9, none⟩,
   ⟨"t3", some ⟨2023, 2, 1⟩, "s", some "d_y", some 1, none⟩]

def c9_wdecks : List DeckDimRow :=
  [⟨some "d_x", some "Krenko", some "u"⟩, ⟨some "d_y", some "Solo", some "v"⟩]

def c9_wrow : PerfRow :=
  ⟨some "krenko", 2, 1, 50, some ⟨2023, 1, 1⟩, some ⟨2023, 2, 1⟩, "TOPPERS"⟩

/-! ## General lemmas about the embedding combinators -/

theorem mapME_ok_length {α β : Type} {f : α → Except PyError β} :
    ∀ {l : List α} {ys : List β}, mapME f l = .ok ys → ys.length = l.length := by
  intro l
  induction l with
  | nil =>
    intro ys h
    simp only [mapME] at h
    injection h with h2
    subst h2
    rfl
  | cons a as ih =>
    intro ys h
    simp only [mapME] at h
    cases hfa : f a with
    | error e => rw [hfa] at h; cases h
    | ok b =>
      rw [hfa] at h
      cases hrest : mapME f as with
      | error e => rw [hrest] at h; cases h
      | ok bs =>
        rw [hrest] at h
        injection h with h2
        subst h2
        simp [ih hrest]

theorem assembleRows_length :
    ∀ (rows : List RawRow) (sids tids : List String),
      rows.length = sids.length → sids.length = tids.length →
      (assembleRows rows sids tids).length = rows.length := by
  intro rows
  induction rows with
  | nil => intro sids tids _ _; cases sids <;> cases tids <;> rfl
  | cons r rs ih =>
    intro sids tids h1 h2
    cases sids with
    | nil => cases h1
    | cons sid sids2 =>
      cases tids with
      | nil => cases h2
      | cons tid tids2 =>
        simp only [assembleRows, List.length_cons]
        rw [ih sids2 tids2 (by simpa using h1) (by simpa using h2)]

theorem assembleRows_zip :
    ∀ (rows : List RawRow) (sids tids : List String) (p : CleanRow × RawRow),
      p ∈ (assembleRows rows sids tids).zip rows →
      ∃ sid tid, p.1 = mkCleanRow p.2 sid tid := by
  intro rows
  induction rows with
  | nil => intro sids tids p hp; cases sids <;> cases tids <;> simp [assembleRows] at hp
  | cons r rs ih =>
    intro sids tids p hp
    cases sids with
    | nil => simp [assembleRows] at hp
    | cons sid sids2 =>
      cases tids with
      | nil => simp [assembleRows] at hp
      | cons tid tids2 =>
        simp only [assembleRows, List.zip_cons_cons, List.mem_cons] at hp
        rcases hp with hp | hp
        · exact ⟨sid, tid, by rw [hp]⟩
        · exact ih sids2 tids2 p hp

/-- Success of the column passes pins the augmented frame: same row count as
the input, and each augmented row is mkCleanRow of the raw row at the same
index for some identifier pair. -/
theorem caller_frame_ok {rows : List RawRow} {aug : List CleanRow}
    (h : caller_frame_after_clean rows = .ok aug) :
    aug.length = rows.length ∧
    ∀ p ∈ aug.zip rows, ∃ sid tid, p.1 = mkCleanRow p.2 sid tid := by
  unfold caller_frame_after_clean at h
  split at h
  · cases h
  · rename_i sids h1
    split at h
    · cases h
    · rename_i tids h2
      injection h with h3
      subst h3
      have hs : sids.length = rows.length := mapME_ok_length h1
      have ht := mapME_ok_length h2
      rw [List.length_zip, List.length_map, hs] at ht
      simp only [Nat.min_self] at ht
      exact ⟨assembleRows_length rows sids tids hs.symm (by omega),
             assembleRows_zip rows sids tids⟩

theorem mem_dropDupAux {α : Type} [DecidableEq α] :
    ∀ (l seen : List α) (x : α), x ∈ dropDupAux seen l ↔ x ∈ l ∧ x ∉ seen := by
  intro l
  induction l with
  | nil => intro seen x; simp [dropDupAux]
  | cons a l ih =>
    intro seen x
    by_cases ha : a ∈ seen
    · rw [dropDupAux, if_pos ha, ih]
      constructor
      · rintro ⟨hx, hns⟩; exact ⟨List.mem_cons_of_mem a hx, hns⟩
      · rintro ⟨hx, hns⟩
        rcases List.mem_cons.mp hx with rfl | hx2
        · exact absurd ha hns
        · exact ⟨hx2, hns⟩
    · rw [dropDupAux, if_neg ha]
      by_cases hxa : x = a
      · subst hxa; simp [ha]
      · simp only [List.mem_cons, hxa, false_or, ih]

theorem nodup_dropDupAux {α : Type} [DecidableEq α] :
    ∀ (l seen : List α), (dropDupAux seen l).Nodup := by
  intro l
  induction l with
  | nil => intro seen; exact List.nodup_nil
  | cons a l ih =>
    intro seen
    by_cases ha : a ∈ seen
    · rw [dropDupAux, if_pos ha]; exact ih seen
    · rw [dropDupAux, if_neg ha]
      refine List.nodup_cons.mpr ⟨fun hmem => ?_, ih (a :: seen)⟩
      exact ((mem_dropDupAux l (a :: seen) a).mp hmem).2 (List.mem_cons_self a seen)

theorem sublist_dropDupAux {α : Type} [DecidableEq α] :
    ∀ (l seen : List α), (dropDupAux seen l).Sublist l := by
  intro l
  induction l with
  | nil => intro seen; exact List.Sublist.refl []
  | cons a l ih =>
    intro seen
    by_cases ha : a ∈ seen
    · rw [dropDupAux, if_pos ha]; exact (ih seen).cons a
    · rw [dropDupAux, if_neg ha]; exact (ih (a :: seen)).cons₂ a

theorem mem_drop_duplicates {α : Type} [DecidableEq α] {l : List α} {x : α} :
    x ∈ drop_duplicates l ↔ x ∈ l := by
  rw [drop_duplicates, mem_dropDupAux]
  simp

theorem nodup_drop_duplicates {α : Type} [DecidableEq α] (l : List α) :
    (drop_duplicates l).Nodup :=
  nodup_dropDupAux l []

theorem sublist_drop_duplicates {α : Type} [DecidableEq α] (l : List α) :
    (drop_duplicates l).Sublist l :=
  sublist_dropDupAux l []

theorem insertBy_perm {α : Type} (r : α → α → Bool) (x : α) :
    ∀ l : List α, (insertBy r x l).Perm (x :: l) := by
  intro l
  induction l with
  | nil => exact List.Perm.refl [x]
  | cons y ys ih =>
    rw [insertBy]
    by_cases h : r x y = true
    · rw [if_pos h]
    · rw [if_neg h]
      exact (ih.cons y).trans (List.Perm.swap x y ys)

theorem sortBy_perm {α : Type} (r : α → α → Bool) :
    ∀ l : List α, (sortBy r l).Perm l := by
  intro l
  induction l with
  | nil => exact List.Perm.refl []
  | cons x xs ih =>
    rw [sortBy]
    exact (insertBy_perm r x (sortBy r xs)).trans (ih.cons x)

theorem insertBy_pairwise {α : Type} {r : α → α → Bool}
    (htot : ∀ a b, r a b = true ∨ r b a = true)
    (htrans : ∀ a b c, r a b = true → r b c = true → r a c = true)
    (x : α) :
    ∀ {l : List α}, l.Pairwise (fun a b => r a b = true) →
      (insertBy r x l).Pairwise (fun a b => r a b = true) := by
  intro l
  induction l with
  | nil => intro _; simp [insertBy]
  | cons y ys ih =>
    intro hl
    rcases List.pairwise_cons.mp hl with ⟨hy, hys⟩
    rw [insertBy]
    by_cases h : r x y = true
    · rw [if_pos h]
      refine List.pairwise_cons.mpr ⟨?_, hl⟩
      intro z hz
      rcases List.mem_cons.mp hz with rfl | hz2
      · exact h
      · exact htrans x y z h (hy z hz2)
    · rw [if_neg h]
      have hyx : r y x = true := (htot x y).resolve_left h
      refine List.pairwise_cons.mpr ⟨?_, ih hys⟩
      intro z hz
      have hz2 : z = x ∨ z ∈ ys := by
        have := (insertBy_perm r x ys).mem_iff.mp hz
        simpa using this
      rcases hz2 with rfl | hz3
      · exact hyx
      · exact hy z hz3

theorem sortBy_pairwise {α : Type} {r : α → α → Bool}
    (htot : ∀ a b, r a b = true ∨ r b a = true)
    (htrans : ∀ a b c, r a b = true → r b c = true → r a c = true) :
    ∀ l : List α, (sortBy r l).Pairwise (fun a b => r a b = true) := by
  intro l
  induction l with
  | nil => simp [sortBy]
  | cons x xs ih =>
    rw [sortBy]
    exact insertBy_pairwise htot htrans x ih

theorem perfOrdb_eq_true_iff (a b : PerfRow) :
    perfOrdb a b = true ↔
      (b.total_aparicoes < a.total_aparicoes ∨
       (a.total_aparicoes = b.total_aparicoes ∧ b.taxa_top4 ≤ a.taxa_top4)) := by
  simp [perfOrdb]

theorem perfOrdb_total (a b : PerfRow) :
    perfOrdb a b = true ∨ perfOrdb b a = true := by
  rw [perfOrdb_eq_true_iff, perfOrdb_eq_true_iff]
  rcases Nat.lt_trichotomy a.total_aparicoes b.total_aparicoes with h | h | h
  · right; left; exact h
  · rcases le_total a.taxa_top4 b.taxa_top4 with ht | ht
    · right; right; exact ⟨h.symm, ht⟩
    · left; right; exact ⟨h, ht⟩
  · left; left; exact h

theorem perfOrdb_trans (a b c : PerfRow)
    (h1 : perfOrdb a b = true) (h2 : perfOrdb b c = true) : perfOrdb a c = true := by
  rw [perfOrdb_eq_true_iff] at h1 h2 ⊢
  rcases h1 with h1 | ⟨he1, ht1⟩
  · rcases h2 with h2 | ⟨he2, ht2⟩
    · left; omega
    · left; omega
  · rcases h2 with h2 | ⟨he2, ht2⟩
    · left; omega
    · right; exact ⟨he1.trans he2, ht2.trans ht1⟩

/-! ## Claim theorems -/

set_option maxRecDepth 10000 in
/-- C1: a record whose DATE text fails every parse strategy does receive the
explicit missing-date sentinel from standardize_date (with a logged
warning in the source), but contrary to the claim it does not survive the
remaining per-record derivation steps: the tournament-identifier pass calls
strftime on the NaT sentinel, and clean_tournament_data aborts with
ValueError instead of dropping the record from the final set.  The
sentinel-and-drop machinery of the source shows the claim describes the
intent; the reachable strftime call is the slip. -/
theorem c1_unparseable_date_crashes_pipeline :
    standardize_date c1_bad_date_row.date = none ∧
    clean_tournament_data [c1_bad_date_row] =
      .error (.valueError "NaTType does not support strftime") :=
  ⟨rfl, rfl⟩

set_option maxRecDepth 10000 in
/-- C3 counterexample: on a store name that is empty after trimming,
generate_store_id does not fail with any error: it returns the ordinary
deterministic identifier with an empty prefix. -/
theorem c3_counterexample_empty_name_returns_id :
    generate_store_id "   " = "_d41d" := by decide

set_option maxRecDepth 10000 in
/-- C3 (amended): for every store name that is empty after trimming,
store_identifier does not fail: hashing does not throw and the result is
the deterministic identifier made of the empty prefix, an underscore, and
the first four hex characters of the content hash of the empty string. -/
theorem c3_empty_name_identifier (name : String)
    (h : pyLower (pyStrip name) = "") :
    generate_store_id name = "_" ++ pyTake 4 (md5Hex (utf8Bytes "")) ∧
    generate_store_id name = "_d41d" := by
  have he : generate_store_id name =
      pyTake 3 (pyLower (pyStrip name)) ++ "_" ++
        pyTake 4 (md5Hex (utf8Bytes (pyLower (pyStrip name)))) := rfl
  rw [he, h]
  exact ⟨rfl, by decide⟩

set_option maxRecDepth 10000 in
theorem c3_empty_name_identifier_witness :
    generate_store_id "  " = "_" ++ pyTake 4 (md5Hex (utf8Bytes "")) ∧
    generate_store_id "  " = "_d41d" :=
  c3_empty_name_identifier "  " (by decide)

/-- C7: for every store name that is non-empty after trimming,
generate_store_id returns the first three characters of the trimmed
lower-cased name, an underscore, and the first four hex characters of the
md5 content hash of the normalized name; and any name with the same
normalization yields the same identifier, on every call and run. -/
theorem c7_store_identifier_shape (name : String)
    (_h : pyLower (pyStrip name) ≠ "") :
    generate_store_id name =
      pyTake 3 (pyLower (pyStrip name)) ++ "_" ++
        pyTake 4 (md5Hex (utf8Bytes (pyLower (pyStrip name)))) ∧
    ∀ other : String, pyLower (pyStrip other) = pyLower (pyStrip name) →
      generate_store_id other = generate_store_id name := by
  refine ⟨rfl, ?_⟩
  intro other heq
  show pyTake 3 (pyLower (pyStrip other)) ++ "_" ++
    pyTake 4 (md5Hex (utf8Bytes (pyLower (pyStrip other)))) = generate_store_id name
  rw [heq]
  rfl

set_option maxRecDepth 10000 in
theorem c7_store_identifier_witness :
    generate_store_id "Game Haven" =
      pyTake 3 (pyLower (pyStrip "Game Haven")) ++ "_" ++
        pyTake 4 (md5Hex (utf8Bytes (pyLower (pyStrip "Game Haven")))) ∧
    generate_store_id "  Game HAVEN " = generate_store_id "Game Haven" ∧
    generate_store_id "Game Haven" = "gam_8fd1" :=
  ⟨(c7_store_identifier_shape "Game Haven" (by decide)).1,
   (c7_store_identifier_shape "Game Haven" (by decide)).2 "  Game HAVEN " (by decide),
   by decide⟩

/-- C8: generate_deck_id maps the missing reference to null rather than an
error, maps every present reference to d_ followed by the first eight hex
characters of the md5 content hash of the reference, and equal references
always yield equal identifiers. -/
theorem c8_deck_identifier_shape :
    generate_deck_id none = none ∧
    (∀ ref : String, generate_deck_id (some ref) =
        some ("d_" ++ pyTake 8 (md5Hex (utf8Bytes ref)))) ∧
    ∀ r1 r2 : Option String, r1 = r2 → generate_deck_id r1 = generate_deck_id r2 :=
  ⟨rfl, fun _ => rfl, fun _ _ h => by rw [h]⟩

set_option maxRecDepth 10000 in
theorem c8_deck_identifier_witness :
    generate_deck_id (some "http://x/y") =
      some ("d_" ++ pyTake 8 (md5Hex (utf8Bytes "http://x/y"))) ∧
    generate_deck_id (some "http://x/y") = generate_deck_id (some "http://x/y") ∧
    generate_deck_id (some "http://x/y") = some "d_9ff807ff" :=
  ⟨c8_deck_identifier_shape.2.1 "http://x/y",
   c8_deck_identifier_shape.2.2 (some "http://x/y") (some "http://x/y") rfl,
   by decide⟩

/-- C4: when clean_tournament_data succeeds, every surviving record has a
present canonical date, position, deck name and store name; the survivors
are exactly the dropna filter of the augmented frame, which has one row per
input row, so they keep the input relative order (a sublist), and the list
model renumbers them contiguously. -/
theorem c4_clean_record_invariants (rows : List RawRow) (out : List CleanRow)
    (h : clean_tournament_data rows = .ok out) :
    (∀ r ∈ out, r.date.isSome = true ∧ r.position.isSome = true ∧
      r.deck.isSome = true ∧ r.store.isSome = true) ∧
    ∃ aug, caller_frame_after_clean rows = .ok aug ∧ aug.length = rows.length ∧
      out = aug.filter dropna_keep ∧ out.Sublist aug := by
  unfold clean_tournament_data at h
  split at h
  · cases h
  · rename_i aug hc
    injection h with h2
    subst h2
    refine ⟨?_, aug, hc, (caller_frame_ok hc).1, rfl, List.filter_sublist aug⟩
    intro r hr
    have hk := (List.mem_filter.mp hr).2
    simp only [dropna_keep, Bool.and_eq_true] at hk
    exact ⟨hk.1.1.1, hk.1.1.2, hk.1.2, hk.2⟩

set_option maxRecDepth 10000 in
theorem c4_clean_record_invariants_witness :
    (∀ r ∈ c4_out, r.date.isSome = true ∧ r.position.isSome = true ∧
      r.deck.isSome = true ∧ r.store.isSome = true) ∧
    ∃ aug, caller_frame_after_clean c4_rows = .ok aug ∧ aug.length = c4_rows.length ∧
      c4_out = aug.filter dropna_keep ∧ c4_out.Sublist aug :=
  c4_clean_record_invariants c4_rows c4_out rfl

/-- C10: on success the callers frame object has been mutated in place by
the column assignments: it still has one row per input row, its DATE column
now holds the parsed dates, its POSITION and INFO columns the coerced and
normalized values, and the derived identifier and date-display columns have
been added; only the final filter (with its implicit reindexing) builds the
fresh object that is returned. -/
theorem c10_clean_mutates_caller_frame (rows : List RawRow) (out : List CleanRow)
    (h : clean_tournament_data rows = .ok out) :
    ∃ aug, caller_frame_after_clean rows = .ok aug ∧
      aug.length = rows.length ∧
      (∀ p ∈ aug.zip rows,
        p.1.date = standardize_date p.2.date ∧
        p.1.position = pd_to_numeric_coerce p.2.position ∧
        p.1.info = clean_info p.2.info ∧
        p.1.deck_id = generate_deck_id p.2.decklist ∧
        p.1.deck = p.2.deck ∧ p.1.decklist = p.2.decklist ∧ p.1.store = p.2.store ∧
        p.1.data_br = (get_formatted_date (standardize_date p.2.date)).data_br ∧
        p.1.mes_ano = (get_formatted_date (standardize_date p.2.date)).mes_ano ∧
        p.1.nome_mes = (get_formatted_date (standardize_date p.2.date)).nome_mes ∧
        p.1.dia_semana = (get_formatted_date (standardize_date p.2.date)).dia_semana) ∧
      out = aug.filter dropna_keep := by
  unfold clean_tournament_data at h
  split at h
  · cases h
  · rename_i aug hc
    injection h with h2
    subst h2
    refine ⟨aug, hc, (caller_frame_ok hc).1, ?_, rfl⟩
    intro p hp
    obtain ⟨sid, tid, hpeq⟩ := (caller_frame_ok hc).2 p hp
    rw [hpeq]
    exact ⟨rfl, rfl, rfl, rfl, rfl, rfl, rfl, rfl, rfl, rfl, rfl⟩

set_option maxRecDepth 10000 in
theorem c10_clean_mutates_caller_frame_witness :
    ∃ aug, caller_frame_after_clean c10_rows = .ok aug ∧
      aug.length = c10_rows.length ∧
      (∀ p ∈ aug.zip c10_rows,
        p.1.date = standardize_date p.2.date ∧
        p.1.position = pd_to_numeric_coerce p.2.position ∧
        p.1.info = clean_info p.2.info ∧
        p.1.deck_id = generate_deck_id p.2.decklist ∧
        p.1.deck = p.2.deck ∧ p.1.decklist = p.2.decklist ∧ p.1.store = p.2.store ∧
        p.1.data_br = (get_formatted_date (standardize_date p.2.date)).data_br ∧
        p.1.mes_ano = (get_formatted_date (standardize_date p.2.date)).mes_ano ∧
        p.1.nome_mes = (get_formatted_date (standardize_date p.2.date)).nome_mes ∧
        p.1.dia_semana = (get_formatted_date (standardize_date p.2.date)).dia_semana) ∧
      c10_out = aug.filter dropna_keep :=
  c10_clean_mutates_caller_frame c10_rows c10_out rfl

set_option maxRecDepth 10000 in
/-- C2 counterexample: cleaning two records whose STORE texts normalize to
the same name but differ as raw text, and whose DECKLIST references are
equal while the DECK names differ, yields a Stores dimension with two rows
for one store identifier and a Decks dimension with two rows for one deck
identifier: the dimensions do not deduplicate by identifier. -/
theorem c2_counterexample_duplicate_identifier_rows :
    ((create_dimensional_tables c2_clean).stores_dim.map (fun r => r.store_id)).length = 2 ∧
    (drop_duplicates
      ((create_dimensional_tables c2_clean).stores_dim.map (fun r => r.store_id))).length = 1 ∧
    ((create_dimensional_tables c2_clean).decks_dim.map (fun r => r.deck_id)).length = 2 ∧
    (drop_duplicates
      ((create_dimensional_tables c2_clean).decks_dim.map (fun r => r.deck_id))).length = 1 := by
  refine ⟨by decide, by decide, by decide, by decide⟩

/-- C2 (amended): the Decks and Stores dimensions deduplicate by the entire
projected row (identifier together with its attribute values), keeping
first-seen occurrences: each dimension is duplicate-free as a list of full
rows, is a sublist of the projected clean records (so first-seen order is
preserved), contains every distinct projected row, and rows with a null
deck identifier are dropped from Decks; rows that share an identifier but
differ in attributes all remain. -/
theorem c2_dims_full_row_dedup (df : List CleanRow) :
    (create_dimensional_tables df).decks_dim.Nodup ∧
    (create_dimensional_tables df).stores_dim.Nodup ∧
    (∀ r ∈ (create_dimensional_tables df).decks_dim, r.deck_id.isSome = true) ∧
    (create_dimensional_tables df).decks_dim.Sublist
      ((df.map deckDimRowOf).filter (fun r => r.deck_id.isSome)) ∧
    (create_dimensional_tables df).stores_dim.Sublist (df.map storeDimRowOf) ∧
    (∀ r ∈ df, storeDimRowOf r ∈ (create_dimensional_tables df).stores_dim) ∧
    (∀ r ∈ df, (deckDimRowOf r).deck_id.isSome = true →
        deckDimRowOf r ∈ (create_dimensional_tables df).decks_dim) := by
  refine ⟨?_, ?_, ?_, ?_, ?_, ?_, ?_⟩
  · exact (nodup_drop_duplicates (df.map deckDimRowOf)).filter _
  · exact nodup_drop_duplicates (df.map storeDimRowOf)
  · intro r hr
    exact (List.mem_filter.mp hr).2
  · exact (sublist_drop_duplicates (df.map deckDimRowOf)).filter _
  · exact sublist_drop_duplicates (df.map storeDimRowOf)
  · intro r hr
    exact mem_drop_duplicates.mpr (List.mem_map_of_mem storeDimRowOf hr)
  · intro r hr hs
    exact List.mem_filter.mpr
      ⟨mem_drop_duplicates.mpr (List.mem_map_of_mem deckDimRowOf hr), hs⟩

set_option maxRecDepth 10000 in
theorem c2_dims_full_row_dedup_witness :
    (create_dimensional_tables c2_clean).decks_dim.Nodup ∧
    (create_dimensional_tables c2_clean).stores_dim.Nodup ∧
    (∀ r ∈ (create_dimensional_tables c2_clean).decks_dim, r.deck_id.isSome = true) ∧
    (create_dimensional_tables c2_clean).decks_dim.Sublist
      ((c2_clean.map deckDimRowOf).filter (fun r => r.deck_id.isSome)) ∧
    (create_dimensional_tables c2_clean).stores_dim.Sublist (c2_clean.map storeDimRowOf) ∧
    (∀ r ∈ c2_clean, storeDimRowOf r ∈ (create_dimensional_tables c2_clean).stores_dim) ∧
    (∀ r ∈ c2_clean, (deckDimRowOf r).deck_id.isSome = true →
        deckDimRowOf r ∈ (create_dimensional_tables c2_clean).decks_dim) :=
  c2_dims_full_row_dedup c2_clean

/-- C5: the embedded pipeline never reads the run environment (hash seed,
memory addresses): two runs over identical input, in arbitrary process
environments, produce equal results, hence byte-identical dimension tables
and an identical fact-table row count. -/
theorem c5_pipeline_deterministic (env1 env2 : RunEnv)
    (cols1 cols2 : List String) (rows1 rows2 : List RawRow)
    (hc : cols1 = cols2) (hr : rows1 = rows2) :
    run_etl env1 cols1 rows1 = run_etl env2 cols2 rows2 ∧
    ∀ t1 t2, run_etl env1 cols1 rows1 = .ok t1 → run_etl env2 cols2 rows2 = .ok t2 →
      t1.decks_dim = t2.decks_dim ∧ t1.stores_dim = t2.stores_dim ∧
      t1.dates_dim = t2.dates_dim ∧
      t1.tournaments_fact.length = t2.tournaments_fact.length := by
  subst hc
  subst hr
  refine ⟨rfl, ?_⟩
  intro t1 t2 h1 h2
  unfold run_etl at h1 h2
  rw [h1] at h2
  injection h2 with h3
  subst h3
  exact ⟨rfl, rfl, rfl, rfl⟩

theorem c5_pipeline_deterministic_witness :
    run_etl ⟨17, 90210⟩ required_columns c5_rows =
      run_etl ⟨42, 31337⟩ required_columns c5_rows :=
  (c5_pipeline_deterministic ⟨17, 90210⟩ ⟨42, 31337⟩
    required_columns required_columns c5_rows c5_rows rfl rfl).1

/-- C6: whenever a required column is missing from the input frame, or the
frame has no rows, validate_raw_data raises, and the transformation chain
of main aborts with that same error before any row processing, producing no
tables at all. -/
theorem c6_validation_aborts_before_processing (cols : List String) (rows : List RawRow)
    (h : (∃ c ∈ required_columns, c ∉ cols) ∨ rows = []) :
    ∃ e, validate_raw_data cols rows = .error e ∧ etl_transform cols rows = .error e := by
  have hval : ∃ e, validate_raw_data cols rows = .error e := by
    rcases h with ⟨c, hc, hnc⟩ | hempty
    · have hcontains : cols.contains c = false := by
        rw [← Bool.not_eq_true]
        exact fun hcon => hnc (List.elem_iff.mp hcon)
      have hmem : c ∈ required_columns.filter (fun c => !cols.contains c) :=
        List.mem_filter.mpr ⟨hc, by rw [hcontains]; rfl⟩
      have hne : (required_columns.filter (fun c => !cols.contains c)).isEmpty = false := by
        rcases hf : required_columns.filter (fun c => !cols.contains c) with _ | ⟨a, l⟩
        · rw [hf] at hmem; cases hmem
        · rfl
      refine ⟨.valueError ("Colunas obrigatórias faltando: " ++
        String.intercalate ", " (required_columns.filter (fun c => !cols.contains c))), ?_⟩
      unfold validate_raw_data
      rw [hne]
      rfl
    · subst hempty
      unfold validate_raw_data
      rcases hf : (required_columns.filter (fun c => !cols.contains c)).isEmpty with _ | _
      · exact ⟨_, rfl⟩
      · exact ⟨_, rfl⟩
  rcases hval with ⟨e, he⟩
  refine ⟨e, he, ?_⟩
  unfold etl_transform
  rw [he]

theorem c6_validation_aborts_witness :
    ∃ e, validate_raw_data ["DATE"] [] = .error e ∧
      etl_transform ["DATE"] [] = .error e :=
  c6_validation_aborts_before_processing ["DATE"] []
    (Or.inl ⟨"POSITION", by decide, by decide⟩)

/-- C9: the reporting query keeps only decks with at least two appearances;
every result row carries, for some deck-name group of the fact-dim join,
the group size, the count of positions at most 4, the top-4 rate as a
rounded two-decimal percentage of those, and the first and last appearance
dates; the classification compares the rate against 50 and the appearance
count against the average appearance count of the qualifying rows; and the
result is sorted by descending appearances, then descending rate. -/
theorem c9_reporting_query_contract (facts : List FactRow) (decks : List DeckDimRow) :
    (obter_performance_dos_decks facts decks).Pairwise (fun a b => perfOrdb a b = true) ∧
    ∀ r ∈ obter_performance_dos_decks facts decks,
      2 ≤ r.total_aparicoes ∧
      r.taxa_top4 = round2 ((r.quantidade_top4 : Rat) / (r.total_aparicoes : Rat) * 100) ∧
      (∃ key : Option String,
        r.deck = key.map pyLower ∧
        r.total_aparicoes = (deckGroup (joinFactsDecks facts decks) key).length ∧
        r.quantidade_top4 =
          ((deckGroup (joinFactsDecks facts decks) key).filter
            (fun p => sqlPosLe4 p.1.position)).length ∧
        r.primeira_aparicao =
          sqlMinDate ((deckGroup (joinFactsDecks facts decks) key).map (fun p => p.1.date)) ∧
        r.ultima_aparicao =
          sqlMaxDate ((deckGroup (joinFactsDecks facts decks) key).map (fun p => p.1.date))) ∧
      r.categoria_performance =
        (if 50 ≤ r.taxa_top4 ∧
            resAvgTotal (obter_performance_dos_decks facts decks) ≤ (r.total_aparicoes : Rat)
          then "TOPPERS"
          else if 50 ≤ r.taxa_top4 then "HIDDEN GEMS"
          else if resAvgTotal (obter_performance_dos_decks facts decks) ≤ (r.total_aparicoes : Rat)
            then "QUERIDINHOS DOS FÃS"
          else "CRINGES") := by
  set j := joinFactsDecks facts decks with hj
  set qual := ((drop_duplicates (j.map (fun p => p.2.deck))).map (statsFor j)).filter
      (fun s => 2 ≤ s.total_aparicoes) with hqual
  set avg := avgTotal qual with havg
  have hre : obter_performance_dos_decks facts decks = sortBy perfOrdb (qual.map (perfRowOf avg)) := rfl
  rw [hre]
  have hperm := sortBy_perm perfOrdb (qual.map (perfRowOf avg))
  have havgeq : resAvgTotal (sortBy perfOrdb (qual.map (perfRowOf avg))) = avg := by
    unfold resAvgTotal
    rw [(hperm.map (fun r => (r.total_aparicoes : Rat))).sum_eq, hperm.length_eq]
    rw [List.map_map, List.length_map]
    rw [havg]
    unfold avgTotal
    rfl
  constructor
  · exact sortBy_pairwise perfOrdb_total perfOrdb_trans _
  · intro r hr
    have hr2 : r ∈ qual.map (perfRowOf avg) := hperm.mem_iff.mp hr
    rcases List.mem_map.mp hr2 with ⟨s, hs, rfl⟩
    rcases List.mem_filter.mp hs with ⟨hsmem, hstot⟩
    rcases List.mem_map.mp hsmem with ⟨key, hkey, rfl⟩
    refine ⟨of_decide_eq_true hstot, rfl, ⟨key, rfl, rfl, rfl, rfl, rfl⟩, ?_⟩
    rw [havgeq]
    rfl

set_option maxRecDepth 10000 in
theorem c9_reporting_query_witness :
    2 ≤ c9_wrow.total_aparicoes ∧
    c9_wrow.taxa_top4 =
      round2 ((c9_wrow.quantidade_top4 : Rat) / (c9_wrow.total_aparicoes : Rat) * 100) ∧
    (∃ key : Option String,
      c9_wrow.deck = key.map pyLower ∧
      c9_wrow.total_aparicoes = (deckGroup (joinFactsDecks c9_wfacts c9_wdecks) key).length ∧
      c9_wrow.quantidade_top4 =
        ((deckGroup (joinFactsDecks c9_wfacts c9_wdecks) key).filter
          (fun p => sqlPosLe4 p.1.position)).length ∧
      c9_wrow.primeira_aparicao =
        sqlMinDate ((deckGroup (joinFactsDecks c9_wfacts c9_wdecks) key).map (fun p => p.1.date)) ∧
      c9_wrow.ultima_aparicao =
        sqlMaxDate ((deckGroup (joinFactsDecks c9_wfacts c9_wdecks) key).map (fun p => p.1.date))) ∧
    c9_wrow.categoria_performance =
      (if 50 ≤ c9_wrow.taxa_top4 ∧
          resAvgTotal (obter_performance_dos_decks c9_wfacts c9_wdecks) ≤
            (c9_wrow.total_aparicoes : Rat)
        then "TOPPERS"
        else if 50 ≤ c9_wrow.taxa_top4 then "HIDDEN GEMS"
        else if resAvgTotal (obter_performance_dos_decks c9_wfacts c9_wdecks) ≤
            (c9_wrow.total_aparicoes : Rat)
          then "QUERIDINHOS DOS FÃS"
        else "CRINGES") :=
  (c9_reporting_query_contract c9_wfacts c9_wdecks).2 c9_wrow (by
    rw [show obter_performance_dos_decks c9_wfacts c9_wdecks = [c9_wrow] from by
      with_unfolding_all rfl]
    exact List.mem_singleton_self c9_wrow)
